import Mathlib

/-!
Verification of the NorthStar Hub audit-contract pipeline.

Shallow embedding of the Python sources (`kernel.py`, `manifest_manager.py`,
`main.py`) into Lean 4.  JSON-like Python values are modelled by `JVal`;
Python `dict`s with string keys are association lists (`Obj`) with first-key
lookup and in-place replacement, matching Python's insertion-order semantics
for the payloads that flow through this pipeline (unique keys).  IEEE floats
are idealised as exact rationals (`ℚ`); Python exceptions are `Except PyErr`;
the wall clock and every external collaborator (file system, remote upload
service, model call, JSON parser) are explicit oracle parameters, so that the
embedded functions are deterministic and total in Lean while mirroring each
`try`/`except` boundary of the source.

Naming note: the specification calls the fail-closed status `UNRESOLVED` and
the scope status `SCOPE_LIMITED`; the code's literal enum tokens are
`UNKNOWN` and `SCOPE_LIMITATION`.  The embedding uses the code's tokens.
-/

/-- Python-style JSON value: the possible shapes of `json.loads` output and of
the payload dictionaries passed around by `kernel.py`. -/
inductive JVal where
  | null
  | bool (b : Bool)
  | num (q : ℚ)
  | str (s : String)
  | arr (xs : List JVal)
  | obj (fields : List (String × JVal))
deriving Repr

/-- Python `dict` with string keys, as an insertion-ordered association list
with unique keys. -/
abbrev Obj := List (String × JVal)

/-- Python exception value: the class name (`type(e).__name__`) and `str(e)`. -/
structure PyErr where
  typeName : String
  msg : String
deriving Repr, DecidableEq

def pyErr (t m : String) : PyErr := ⟨t, m⟩

/-- Python truthiness (`bool(x)`) on the modelled values. -/
def JVal.truthy : JVal → Bool
  | .null => false
  | .bool b => b
  | .num q => q != 0
  | .str s => s != ""
  | .arr xs => !xs.isEmpty
  | .obj xs => !xs.isEmpty

/-- Whether the value is Python `None` (`x is None`). -/
def JVal.isNull : JVal → Bool
  | .null => true
  | _ => false

/-- Lookup of a key in a dict (first occurrence), `none` when absent. -/
def getKey : Obj → String → Option JVal
  | [], _ => none
  | (k', v) :: rest, k => if k' = k then some v else getKey rest k

/-- Python `d[k] = v`: replace the value in place when the key exists
(preserving insertion order), append otherwise. -/
def setKey : Obj → String → JVal → Obj
  | [], k, v => [(k, v)]
  | (k', v') :: rest, k, v =>
      if k' = k then (k, v) :: rest else (k', v') :: setKey rest k v

/-- Python `d.get(k)`: `None` when the key is absent (JSON `null` and Python
`None` are the same value, so collapsing absent to `.null` is faithful for
every use in the source, which only ever tests the result for truthiness or
`is not None`). -/
def pyGet (o : Obj) (k : String) : JVal :=
  (getKey o k).getD .null

-- ==========================================================
-- Character/string helpers mirroring the Python `str` methods
-- used by the gates (ASCII range; the tokens compared are ASCII)
-- ==========================================================

def isSpaceChar (c : Char) : Bool :=
  c = ' ' || c = '\t' || c = '\n' || c = '\r' || c = '\x0b' || c = '\x0c'

def upChar (c : Char) : Char :=
  if 'a' ≤ c ∧ c ≤ 'z' then Char.ofNat (c.toNat - 32) else c

def lowChar (c : Char) : Char :=
  if 'A' ≤ c ∧ c ≤ 'Z' then Char.ofNat (c.toNat + 32) else c

def pyStripL (l : List Char) : List Char :=
  ((l.dropWhile isSpaceChar).reverse.dropWhile isSpaceChar).reverse

/-- Python `s.strip()`. -/
def pyStripS (s : String) : String := String.mk (pyStripL s.data)

/-- Python `s.upper()`. -/
def pyUpperS (s : String) : String := String.mk (s.data.map upChar)

/-- Python `s.lower()`. -/
def pyLowerS (s : String) : String := String.mk (s.data.map lowChar)

-- ==========================================================
-- Decimal rendering and parsing (for `str`, `float`, `int`)
-- ==========================================================

def digitChar (d : Nat) : Char := Char.ofNat (48 + d % 10)

def natDigitsAux : Nat → Nat → List Char → List Char
  | 0, _, acc => acc
  | fuel + 1, n, acc =>
      if n < 10 then digitChar n :: acc
      else natDigitsAux fuel (n / 10) (digitChar (n % 10) :: acc)

def natChars (n : Nat) : List Char := natDigitsAux (n + 1) n []

def intChars (i : Int) : List Char :=
  if i < 0 then '-' :: natChars i.natAbs else natChars i.natAbs

def natStr (n : Nat) : String := String.mk (natChars n)

def intStr (i : Int) : String := String.mk (intChars i)

/-- Rendering of a rational as Python renders the number it models.  An
integral value renders as its digits; a non-integral value is rendered as
`num/den` (an approximation of Python's decimal float rendering — every use
in the source only compares the rendering against the all-letter placeholder
token `"UNKNOWN"`, which no numeric rendering can equal). -/
def ratChars (q : ℚ) : List Char :=
  if q.den = 1 then intChars q.num else intChars q.num ++ '/' :: natChars q.den

/-- Python `str(x)`.  Container renderings are abbreviated: Python renders a
list as `[...]` and a dict inside braces; the source only ever compares these
against the placeholder token, which neither rendering can equal. -/
def pyStr : JVal → String
  | .null => "None"
  | .bool b => if b then "True" else "False"
  | .num q => String.mk (ratChars q)
  | .str s => s
  | .arr _ => "[...]"
  | .obj _ => "\x7b...\x7d"

def isDigitChar (c : Char) : Bool := '0' ≤ c && c ≤ '9'

def digitsToNat (l : List Char) : Nat :=
  l.foldl (fun acc c => acc * 10 + (c.toNat - 48)) 0

/-- Splits an optional leading sign, as Python numeric parsing does. -/
def splitSign : List Char → Int × List Char
  | '-' :: rest => (-1, rest)
  | '+' :: rest => (1, rest)
  | l => (1, l)

/-- Python `float(s)` on a string: optional surrounding whitespace, optional
sign, decimal digits with an optional fractional part.  Exotic forms
(`inf`, `nan`, exponents, underscores) are modelled as failures; no part of
the source feeds such strings to `float` on any claim-relevant path. -/
def parsePyFloat (s : String) : Option ℚ :=
  let l := pyStripL s.data
  let (sign, l) := splitSign l
  let intPart := l.takeWhile (fun c => c ≠ '.')
  let rest := l.dropWhile (fun c => c ≠ '.')
  match rest with
  | [] =>
      if intPart ≠ [] ∧ intPart.all isDigitChar then
        some ((sign : ℚ) * digitsToNat intPart)
      else none
  | '.' :: frac =>
      if intPart.all isDigitChar ∧ frac.all isDigitChar ∧ (intPart ≠ [] ∨ frac ≠ []) then
        some ((sign : ℚ) * (digitsToNat intPart * 10 ^ frac.length + digitsToNat frac) /
          (10 ^ frac.length : ℚ))
      else none
  | _ => none

/-- Python `int(s)` on a string: optional whitespace, optional sign, decimal
digits only (a fractional literal raises). -/
def parsePyInt (s : String) : Option ℤ :=
  let l := pyStripL s.data
  let (sign, l) := splitSign l
  if l ≠ [] ∧ l.all isDigitChar then some (sign * digitsToNat l) else none

/-- Python `int(q)` on a number: truncation toward zero. -/
def intOfRat (q : ℚ) : ℤ := Int.tdiv q.num q.den

/-- Embeds `_coerce_float(x, default)` from `kernel.py`: `float(x)` with every
exception mapped to the default. -/
def coerce_float (x : JVal) (default : ℚ) : ℚ :=
  match x with
  | .num q => q
  | .bool b => if b then 1 else 0
  | .str s => (parsePyFloat s).getD default
  | _ => default

/-- Embeds `_coerce_int(x, default=x)` as used by the evidence gate: the
integer coercion of `x` when `int(x)` succeeds, the original value otherwise. -/
def coerce_int_or_keep (x : JVal) : JVal :=
  match x with
  | .num q => .num (intOfRat q : ℚ)
  | .bool b => .num (if b then 1 else 0)
  | .str s =>
      match parsePyInt s with
      | some n => .num (n : ℚ)
      | none => x
  | _ => x

-- ==========================================================
-- CANON constants (kernel.py)
-- ==========================================================

def KERNEL_VERSION : String := "NS-DK-2.1"

def NOTES_IMMUTABLE : String := "TECHNICAL_DATA_CONSISTENCY_CHECK_ONLY"

def ALLOWED_STATUS : List String :=
  ["OK", "RISK_DETECTED", "INCOMPLETE", "UNKNOWN", "SCOPE_LIMITATION"]

def ALLOWED_RISK : List String := ["NONE", "LOW", "MEDIUM", "HIGH"]

/-- Embeds `_empty_payload` from `kernel.py`.  `now` is the oracle value of
`_utc_iso()`. -/
def empty_payload (now status risk_level : String) (confidence : ℚ)
    (notes_extra : String) : Obj :=
  [("version", .str KERNEL_VERSION),
   ("timestamp", .str now),
   ("status", .str status),
   ("risk_level", .str risk_level),
   ("findings", .arr []),
   ("confidence", .num confidence),
   ("notes", .str (if notes_extra = "" then NOTES_IMMUTABLE
                   else NOTES_IMMUTABLE ++ " | " ++ notes_extra))]

-- ==========================================================
-- dict() coercion (the `dict(payload or {})` idiom)
-- ==========================================================

/-- Folds a Python sequence of string-keyed pairs into a dict, later pairs
overriding earlier values in place, as `dict(iterable)` does. -/
def pairsToObjAux : Obj → List JVal → Except PyErr Obj
  | acc, [] => .ok acc
  | acc, .arr [.str k, v] :: rest => pairsToObjAux (setKey acc k v) rest
  | _, _ => .error (pyErr "ValueError" "dictionary update sequence element")

def pairsToObj (xs : List JVal) : Except PyErr Obj := pairsToObjAux [] xs

/-- Embeds the `dict(payload or {})` idiom that opens `_normalize_contract`,
`_evidence_gate` and `_confidence_gate`: a falsy value becomes the empty
dict, a dict is shallow-copied, a sequence of string-keyed pairs builds a
dict, a non-empty string raises `ValueError`, and any other value raises
`TypeError` (Python also accepts pair sequences with non-string hashable
keys, which `Obj` cannot represent; those are coarsened to an error — the
pipeline only ever reaches this code with `json.loads` output, and the
boundary handler catches either way). -/
def pyDict (v : JVal) : Except PyErr Obj :=
  if v.truthy = false then .ok []
  else
    match v with
    | .obj xs => .ok xs
    | .arr xs => pairsToObj xs
    | .str _ => .error (pyErr "ValueError" "dictionary update sequence element")
    | _ => .error (pyErr "TypeError" "object is not iterable")

-- ==========================================================
-- Contract normalizer (`_normalize_contract`)
-- ==========================================================

/-- Findings coercion of `_normalize_contract`: keep a list, replace any
non-list with the empty list. -/
def coerceFindings (v : JVal) : JVal :=
  match v with
  | .arr xs => .arr xs
  | _ => .arr []

/-- Pure body of `_normalize_contract`, applied to the dict produced by
`dict(payload or {})`. -/
def normalizeCore (now : String) (p : Obj) : Obj :=
  let p := setKey p "version" (.str KERNEL_VERSION)
  let ts := pyGet p "timestamp"
  let p := setKey p "timestamp" (if ts.truthy then ts else .str now)
  let statusRaw := pyGet p "status"
  let status := pyUpperS (pyStr (if statusRaw.truthy then statusRaw else .str "UNKNOWN"))
  let riskRaw := pyGet p "risk_level"
  let risk := pyUpperS (pyStr (if riskRaw.truthy then riskRaw else .str "NONE"))
  let status := if ALLOWED_STATUS.contains status then status else "UNKNOWN"
  let risk := if ALLOWED_RISK.contains risk then risk else "NONE"
  let p := setKey p "status" (.str status)
  let p := setKey p "risk_level" (.str risk)
  let p := setKey p "findings" (coerceFindings (pyGet p "findings"))
  let p := setKey p "confidence" (.num (coerce_float (pyGet p "confidence") 0))
  setKey p "notes" (.str NOTES_IMMUTABLE)

/-- Embeds `_normalize_contract` from `kernel.py` (lines 423-451).  `now` is
the oracle value of `_utc_iso()`.  The function can raise: `dict(payload or
{})` raises for a truthy non-mapping that is not a pair sequence (e.g. any
non-empty string). -/
def normalize_contract (now : String) (payload : JVal) : Except PyErr Obj :=
  (pyDict payload).map (normalizeCore now)

-- ==========================================================
-- Evidence gate (`_evidence_gate`)
-- ==========================================================

/-- Evidence value of a finding dict: `ev = f.get("evidence") or {}`. -/
def evidenceOf (fo : Obj) : JVal :=
  let ev0 := pyGet fo "evidence"
  if ev0.truthy then ev0 else JVal.obj []

/-- Conjunction of the kept-finding conditions (`doc and field and page is
not None`, then the two placeholder comparisons), on the evidence dict. -/
def evChecks (eo : Obj) : Bool :=
  (pyGet eo "document").truthy && (pyGet eo "field").truthy &&
  !(pyGet eo "page").isNull &&
  (pyUpperS (pyStripS (pyStr (pyGet eo "page"))) != "UNKNOWN") &&
  (pyUpperS (pyStripS (pyStr (pyGet eo "field"))) != "UNKNOWN")

/-- Embeds the per-finding filter of `_evidence_gate` (kernel.py lines
466-484): a finding is kept iff it is a dict, its evidence (or `{}` when
falsy) is a dict, and `evChecks` passes.  The page of a kept finding is
coerced to an integer when possible, keeping the original value otherwise.
Note the source never compares `document` against the placeholder token. -/
def keepFinding (f : JVal) : Option JVal :=
  match f with
  | .obj fo =>
    match evidenceOf fo with
    | .obj eo =>
      if evChecks eo then
        some (.obj (setKey fo "evidence"
          (.obj (setKey eo "page" (coerce_int_or_keep (pyGet eo "page"))))))
      else none
    | _ => none
  | _ => none

/-- Whether `p.get("status") == "RISK_DETECTED"` holds in Python (only a
string can equal a string). -/
def isRiskStatus (p : Obj) : Bool :=
  match pyGet p "status" with
  | .str s => s = "RISK_DETECTED"
  | _ => false

/-- Embeds the downgrade branch of `_evidence_gate` (kernel.py lines
488-491). -/
def downgradeRisk (p : Obj) : Obj :=
  setKey (setKey (setKey p "status" (.str "UNKNOWN")) "risk_level" (.str "NONE"))
    "confidence" (.num (min (coerce_float (pyGet p "confidence") 0) 0.5))

/-- Filtering plus downgrade, on the findings list `fs` read from the
payload: write back the filtered list, then downgrade when the (unchanged)
status claims risk without a surviving finding. -/
def evidence_gateCore (p : Obj) (fs : List JVal) : Obj :=
  if isRiskStatus (setKey p "findings" (.arr (fs.filterMap keepFinding))) &&
      (fs.filterMap keepFinding).isEmpty then
    downgradeRisk (setKey p "findings" (.arr (fs.filterMap keepFinding)))
  else setKey p "findings" (.arr (fs.filterMap keepFinding))

/-- Embeds `_evidence_gate` from `kernel.py` (lines 454-493) on a dict
payload (`dict(payload or {})` is the identity copy on the dict payloads the
pipeline feeds it).  `p.get("findings", [])` defaults an absent key to the
empty list; a present non-list value triggers the early return that replaces
`findings` with `[]` and skips the downgrade check. -/
def evidence_gateObj (p : Obj) : Obj :=
  match getKey p "findings" with
  | none => evidence_gateCore p []
  | some (.arr fs) => evidence_gateCore p fs
  | some _ => setKey p "findings" (.arr [])

-- ==========================================================
-- Confidence gate (`_confidence_gate`)
-- ==========================================================

/-- Embeds `_confidence_gate` from `kernel.py` (lines 496-506) on a dict
payload, with the threshold (`CONFIDENCE_GATE`, default `0.70`) and the
clock passed explicitly. -/
def confidence_gateObj (threshold : ℚ) (now : String) (p : Obj) : Obj :=
  let c := coerce_float (pyGet p "confidence") 0
  if c < threshold then empty_payload now "UNKNOWN" "NONE" c "CONFIDENCE_GATE_ACTIVE"
  else p

-- ==========================================================
-- Retry/backoff orchestrator (`_call_model_with_retries`)
-- ==========================================================

/-- Name used by `type(last_err).__name__` when no attempt ever ran. -/
def errName : Option PyErr → String
  | none => "NoneType"
  | some e => e.typeName

/-- Recursion over the attempts of `_call_model_with_retries`.  `op i` is the
outcome of the `generate_content` call on attempt `i`; the returned list
records every `time.sleep` duration, in order (the source sleeps after every
failed attempt, including the last one). -/
def callModelAux (base : ℚ) (op : Nat → Except PyErr α) :
    Nat → Nat → Option PyErr → List ℚ → Except PyErr α × List ℚ
  | 0, _, lastErr, sleeps =>
      (.error (pyErr "RuntimeError" ("MODEL_CALL_FAIL:" ++ errName lastErr)), sleeps.reverse)
  | remaining + 1, i, _, sleeps =>
      match op i with
      | .ok x => (.ok x, sleeps.reverse)
      | .error e => callModelAux base op remaining (i + 1) (some e) (base * 2 ^ i :: sleeps)

/-- Embeds `_call_model_with_retries` from `kernel.py` (lines 512-527):
`MAX_RETRIES + 1` attempts; every exception is recorded and slept on with
exponential backoff; exhaustion raises a fresh `RuntimeError` tagged with the
last exception's class name. -/
def call_model_with_retries (maxRetries : Nat) (base : ℚ)
    (op : Nat → Except PyErr α) : Except PyErr α × List ℚ :=
  callModelAux base op (maxRetries + 1) 0 none []

-- ==========================================================
-- Manifest manager (`ManifestManager.ensure_active_pdf_files`)
-- ==========================================================

/-- A local file as seen by `folder.glob("*.pdf")`: name, `stat` metadata and
the `is_file()` answer. -/
structure PdfFile where
  fname : String
  size : Nat
  mtime : Int
  isFile : Bool
deriving Repr, DecidableEq

/-- Remote handle returned by a successful upload (`uploaded.name`,
`uploaded.uri`). -/
structure Uploaded where
  uname : String
  uri : String
deriving Repr, DecidableEq

/-- One element of the reference list `ensure_active_pdf_files` returns:
`{"name": ..., "uri": ..., "local": ...}` (all string-valued in the source). -/
structure RemoteRef where
  rname : String
  uri : String
  localName : String
deriving Repr, DecidableEq

/-- External collaborators of the manifest manager: remote liveness answers,
the uploader (per local file path), and `time.time()`. -/
structure MMEnv where
  folderExists : Bool
  files : List PdfFile
  remoteActive : String → Bool
  upload : String → Except PyErr Uploaded
  nowEpoch : Int

/-- Embeds `ManifestManager._fingerprint`: `f"{p.name}__{st.st_size}__{int(st.st_mtime)}"`. -/
def fingerprint (p : PdfFile) : String :=
  p.fname ++ "__" ++ natStr p.size ++ "__" ++ intStr p.mtime

/-- Manifest entry written after a fresh upload. -/
def mkEntry (u : Uploaded) (nowEpoch : Int) (localName : String) : JVal :=
  .obj [("name", .str u.uname), ("uri", .str u.uri),
        ("uploaded_at", .num (nowEpoch : ℚ)), ("local", .str localName)]

/-- Outcome of one `ensure_active_pdf_files` call: the returned value or the
propagated exception, the in-memory manifest after the call, and what (if
anything) `save()` wrote to stable storage. -/
structure MMResult where
  result : Except PyErr (List RemoteRef)
  data : Obj
  saved : Option Obj
deriving Repr

/-- Embeds the reuse test `entry and entry.get("name") and
self._remote_active(str(entry["name"]))` followed by the construction of the
reused reference.  Returns the reused reference, `none` when a fresh upload
is needed, or the exception Python would raise (`entry["uri"]` on an entry
without a `uri` key; `entry.get` on a truthy non-dict manifest value). -/
def reuseCheck (env : MMEnv) (data : Obj) (key : String) (localName : String) :
    Except PyErr (Option RemoteRef) :=
  match getKey data key with
  | none => .ok none
  | some entry =>
    if entry.truthy = false then .ok none
    else
      match entry with
      | .obj eo =>
        if (pyGet eo "name").truthy = false then .ok none
        else if env.remoteActive (pyStr (pyGet eo "name")) = false then .ok none
        else
          match getKey eo "uri" with
          | some uriv => .ok (some ⟨pyStr (pyGet eo "name"), pyStr uriv, localName⟩)
          | none => .error (pyErr "KeyError" "uri")
      | _ => .error (pyErr "AttributeError" "get")

/-- The per-file loop of `ensure_active_pdf_files`.  An exception anywhere
(reuse lookup or upload) propagates at once: the remaining files are not
visited and `save()` is never reached. -/
def ensureAux (env : MMEnv) : List PdfFile → Obj → List RemoteRef → MMResult
  | [], data, refs => ⟨.ok refs, data, some data⟩
  | p :: rest, data, refs =>
    if p.isFile = false then ensureAux env rest data refs
    else
      match reuseCheck env data (fingerprint p) p.fname with
      | .error e => ⟨.error e, data, none⟩
      | .ok (some r) => ensureAux env rest data (refs ++ [r])
      | .ok none =>
        match env.upload p.fname with
        | .error e => ⟨.error e, data, none⟩
        | .ok u =>
          ensureAux env rest (setKey data (fingerprint p) (mkEntry u env.nowEpoch p.fname))
            (refs ++ [⟨u.uname, u.uri, p.fname⟩])

/-- Embeds `ManifestManager.ensure_active_pdf_files` from `kernel.py` (lines
218-249) with the remote service as an oracle (`_upload_any`'s SDK signature
probing is opaque per the spec's external-interface boundary).  `env.files`
is the already-sorted `folder.glob("*.pdf")` enumeration; a missing folder
raises `FileNotFoundError`; `save()` runs only when the whole loop
completes. -/
def ensure_active_pdf_files (env : MMEnv) (data : Obj) : MMResult :=
  if env.folderExists = false then
    ⟨.error (pyErr "FileNotFoundError" "SOUL_FOLDER_MISSING"), data, none⟩
  else ensureAux env env.files data []

-- ==========================================================
-- Audit orchestrator (`_run_gemini_audit` / `audit_credit_report`)
-- ==========================================================

/-- Oracle view of every external collaborator the audit orchestrator
touches, making `audit_credit_report` a total deterministic function of this
record plus the input path.  Each field is one collaborator call site of
`kernel.py`; functions already fail-closed in the source (`_pdf_page_count`,
`_detect_bureau_from_pdf`, `ManifestManager._load`, `_read_text_if_exists`)
are modelled by their total results. -/
structure AuditEnv where
  now : String
  apiKey : Option String
  fileExists : String → Bool
  mkdirs : Except PyErr Unit
  reportPages : Option Int
  maxPdfPages : Int
  bureau : String
  soulDirIsDir : Bool
  manifestInit : Obj
  mm : MMEnv
  soulDirExistsForBtm : Bool
  btmGlob : String → List String
  instrFile : String → Option String
  uploadReport : Except PyErr Uploaded
  generate : Nat → Except PyErr (Option String)
  jsonParse : String → Option JVal
  maxRetries : Nat
  backoffBase : ℚ
  threshold : ℚ

/-- Keeps the first occurrence of each name, as the de-dup loop of
`_select_btm_files` does. -/
def dedupNames : List String → List String → List String
  | [], _ => []
  | x :: xs, seen =>
      if seen.contains x then dedupNames xs seen else x :: dedupNames xs (x :: seen)

/-- Embeds `_select_btm_files` from `kernel.py` (lines 293-330): bureau-keyed
glob patterns over the SOUL folder (the glob oracle returns each pattern's
sorted matches), concatenated and de-duplicated by name. -/
def select_btm_files (env : AuditEnv) (bureau_id : String) : List String :=
  if env.soulDirExistsForBtm = false then []
  else
    let b := pyUpperS (if bureau_id = "" then "UNKNOWN" else bureau_id)
    let pats : List String :=
      if b = "TRANSUNION" then ["BTM_TRANSUNION*.pdf", "BTM_TU*.pdf"]
      else if b = "EXPERIAN" then ["BTM_EXPERIAN*.pdf", "BTM_EXP*.pdf"]
      else if b = "EQUIFAX" then ["BTM_EQUIFAX*.pdf", "BTM_EQ*.pdf"]
      else []
    if pats.isEmpty then []
    else dedupNames (pats.flatMap env.btmGlob) []

/-- Default system-instruction texts embedded in `kernel.py`.  The full
prompt wording is elided (no claim depends on its content); what matters to
the control flow is preserved: the defaults are non-empty. -/
def DEFAULT_BASE : String :=
  "ROLE: Principal Technical Data Consistency Auditor (NorthStar Hub)."

def DEFAULT_BUREAU_RULES : String := "BUREAU DIALECT NORMALIZATION RULES:"

def DEFAULT_CONTRACT : String := "NS-DK JSON CONTRACT:"

/-- Embeds `_read_text_if_exists`: stripped file content, `none` on a
missing file or read error. -/
def read_text_if_exists (env : AuditEnv) (fname : String) : Option String :=
  (env.instrFile fname).map pyStripS

/-- Python `x or default` on an optional string. -/
def orDefault (o : Option String) (d : String) : String :=
  match o with
  | some s => if s = "" then d else s
  | none => d

/-- Embeds `_build_system_instruction` from `kernel.py` (lines 405-417). -/
def build_system_instruction (env : AuditEnv) (bureau_id : String) : String :=
  let base := orDefault (read_text_if_exists env "nsdk_base.md") DEFAULT_BASE
  let rules := orDefault (read_text_if_exists env "nsdk_bureau_rules.md") DEFAULT_BUREAU_RULES
  let contract := orDefault (read_text_if_exists env "nsdk_output_contract.json") DEFAULT_CONTRACT
  let bureau_line := "BUREAU_ID: " ++ bureau_id ++ "\n"
  pyStripS (String.intercalate "\n\n" [base, bureau_line, rules, contract])

/-- Embeds the notes-trace step at the end of `_run_gemini_audit` (lines
622-626): when the gated payload still carries the bare canonical notes
string, a bureau/BTM trace suffix is appended.  `payload["notes"]` is dict
indexing, so a missing key would raise. -/
def isCanonNotes (v : JVal) : Bool :=
  match v with
  | .str s => s = NOTES_IMMUTABLE
  | _ => false

def notesTrace (env : AuditEnv) (payload : Obj) : Except PyErr Obj :=
  match getKey payload "notes" with
  | none => .error (pyErr "KeyError" "notes")
  | some v =>
    if isCanonNotes v then
      let btm_present := !(select_btm_files env env.bureau).isEmpty
      let extra := "BUREAU:" ++ env.bureau ++ (if btm_present then "|BTM:ON" else "")
      .ok (setKey payload "notes" (.str (NOTES_IMMUTABLE ++ " | " ++ extra)))
    else .ok payload

/-- Guard `pages is not None and pages > MAX_PDF_PAGES` of `_run_gemini_audit`. -/
def pageLimitExceeded (pages : Option Int) (maxPages : Int) : Bool :=
  match pages with
  | some n => n > maxPages
  | none => false

/-- Rendering of the page count inside the page-limit diagnostic. -/
def pagesStr (pages : Option Int) : String :=
  match pages with
  | some n => intStr n
  | none => ""

/-- Embeds `_run_gemini_audit` from `kernel.py` (lines 533-628), with each
`try`/`except` of the source appearing as a `match` on the collaborator's
outcome.  Exceptions the source does not catch here — a missing API key, a
`None` response text fed to `json.loads`, a raise inside
`_normalize_contract` — surface as `.error` and are left for the public
entry point's boundary handler. -/
def run_gemini_audit (env : AuditEnv) : Except PyErr Obj :=
  match env.apiKey with
  | none => .error (pyErr "RuntimeError" "MISSING_API_KEY")
  | some _ =>
    if pageLimitExceeded env.reportPages env.maxPdfPages then
      .ok (empty_payload env.now "INCOMPLETE" "NONE" 0
        ("PDF_PAGE_LIMIT_EXCEEDED:" ++ pagesStr env.reportPages ++
          ">" ++ intStr env.maxPdfPages))
    else if env.soulDirIsDir = false then
      .ok (empty_payload env.now "INCOMPLETE" "NONE" 0 "SOUL_DIR_MISSING")
    else
      match (ensure_active_pdf_files env.mm env.manifestInit).result with
      | .error e =>
          .ok (empty_payload env.now "INCOMPLETE" "NONE" 0
            ("SOUL_MANIFEST_FAIL:" ++ e.typeName))
      | .ok soul_refs =>
        if soul_refs.isEmpty then
          .ok (empty_payload env.now "INCOMPLETE" "NONE" 0 "SOUL_NO_PDFS_FOUND")
        else
          match env.uploadReport with
          | .error e =>
              .ok (empty_payload env.now "INCOMPLETE" "NONE" 0
                ("REPORT_UPLOAD_FAIL:" ++ e.typeName))
          | .ok _report_file =>
            if build_system_instruction env env.bureau = "" then
              .ok (empty_payload env.now "INCOMPLETE" "NONE" 0 "MISSING_SYSTEM_INSTRUCTION")
            else
              match (call_model_with_retries env.maxRetries env.backoffBase env.generate).1 with
              | .error e => .ok (empty_payload env.now "UNKNOWN" "NONE" 0 e.msg)
              | .ok none => .error (pyErr "TypeError" "the JSON object must be str")
              | .ok (some raw_text) =>
                match env.jsonParse raw_text with
                | none => .ok (empty_payload env.now "UNKNOWN" "NONE" 0 "BAD_JSON_OUTPUT")
                | some raw =>
                  match normalize_contract env.now raw with
                  | .error e => .error e
                  | .ok payload =>
                    notesTrace env
                      (confidence_gateObj env.threshold env.now (evidence_gateObj payload))

/-- Python `file_path.lower().endswith(".pdf")`. -/
def endsWithPdf (s : String) : Bool :=
  List.isSuffixOf ".pdf".data (s.data.map lowChar)

/-- Embeds `audit_credit_report` from `kernel.py` (lines 634-656): the input
sanity checks, the directory preparation, the delegated audit, and the
outermost `except Exception` boundary that converts any propagated exception
into a canonical `KERNEL_FAIL` payload. -/
def audit_body (env : AuditEnv) (file_path : String) : Except PyErr Obj :=
  if file_path = "" then
    .ok (empty_payload env.now "INCOMPLETE" "NONE" 0 "BAD_INPUT")
  else if env.fileExists file_path = false then
    .ok (empty_payload env.now "INCOMPLETE" "NONE" 0 "FILE_NOT_FOUND")
  else if endsWithPdf file_path = false then
    .ok (empty_payload env.now "INCOMPLETE" "NONE" 0 "NOT_PDF")
  else
    match env.mkdirs with
    | .error e => .error e
    | .ok _ => run_gemini_audit env

def audit_credit_report (env : AuditEnv) (file_path : String) : Obj :=
  match audit_body env file_path with
  | .ok p => p
  | .error e => empty_payload env.now "UNKNOWN" "NONE" 0 ("KERNEL_FAIL:" ++ e.typeName)

-- ==========================================================
-- Structural validity of a payload (the NS-DK wire contract)
-- ==========================================================

def isStrVal : JVal → Bool
  | .str _ => true
  | _ => false

def isNumVal : JVal → Bool
  | .num _ => true
  | _ => false

def isArrVal : JVal → Bool
  | .arr _ => true
  | _ => false

/-- Whether a value is a string drawn from the status enum. -/
def statusOK (v : JVal) : Bool :=
  match v with
  | .str s => ALLOWED_STATUS.contains s
  | _ => false

/-- Whether a value is a string drawn from the risk enum. -/
def riskOK (v : JVal) : Bool :=
  match v with
  | .str s => ALLOWED_RISK.contains s
  | _ => false

/-- Structural validity of a payload against the NS-DK wire contract: the
seven contract keys are present and carry the contract's types, with
`status` and `risk_level` drawn from their enums. -/
def structValid (p : Obj) : Bool :=
  isStrVal (pyGet p "version") &&
  isStrVal (pyGet p "timestamp") &&
  statusOK (pyGet p "status") &&
  riskOK (pyGet p "risk_level") &&
  isArrVal (pyGet p "findings") &&
  isNumVal (pyGet p "confidence") &&
  isStrVal (pyGet p "notes")

-- ==========================================================
-- Derived predicates, pipeline composition, and the concrete
-- payloads/environments used by witnesses and counterexamples
-- ==========================================================

/-- Alphabet of the numeric renderings. -/
def numTokenChars : List Char :=
  ['0', '1', '2', '3', '4', '5', '6', '7', '8', '9', '-', '/']

/-- Weak structural validity: like `structValid` but requiring only the
presence — not the string type — of `timestamp`.  This is exactly what the
code guarantees: a truthy non-string `timestamp` supplied by the model
survives normalization (see the C1/C6 analyses). -/
def structValidW (p : Obj) : Bool :=
  isStrVal (pyGet p "version") &&
  (getKey p "timestamp").isSome &&
  statusOK (pyGet p "status") &&
  riskOK (pyGet p "risk_level") &&
  isArrVal (pyGet p "findings") &&
  isNumVal (pyGet p "confidence") &&
  isStrVal (pyGet p "notes")

/-- The findings list of a payload (empty when absent or not a list). -/
def findingsList (p : Obj) : List JVal :=
  match getKey p "findings" with
  | some (.arr fs) => fs
  | _ => []

/-- The amended evidence invariant of one finding: it is a dict whose
evidence (after the `or {}` default) is a dict passing `evChecks` — truthy
`document` and `field`, non-`None` `page`, and `page`/`field` renderings
that differ from the placeholder (the source checks no placeholder on
`document`). -/
def evidenceOK (g : JVal) : Bool :=
  match g with
  | .obj go =>
    (match evidenceOf go with
     | .obj eo => evChecks eo
     | _ => false)
  | _ => false

/-- The seven wire-contract keys. -/
def CONTRACT_KEYS : List String :=
  ["version", "timestamp", "status", "risk_level", "findings", "confidence", "notes"]

/-- The Audit Contract Pipeline of the spec: the model response, normalized
and passed through both gates (the steps of `_run_gemini_audit` lines
616-618, before the notes trace). -/
def pipelineGated (t : ℚ) (now : String) (raw : JVal) : Except PyErr Obj :=
  (normalize_contract now raw).map (fun p => confidence_gateObj t now (evidence_gateObj p))

/-- Manifest environment for a run whose single SOUL file uploads fine. -/
def c1mm : MMEnv :=
  ⟨true, [⟨"soul.pdf", 10, 0, true⟩], fun _ => false,
   fun _ => .ok ⟨"files/s1", "uri-s1"⟩, 0⟩

/-- Audit environment in which every collaborator succeeds and the model
answers `{"timestamp": 5, "status": "OK", "confidence": 1}`: a numeric
timestamp supplied by the remote response. -/
def c1env : AuditEnv :=
  ⟨"2026-02-01T00:00:00Z",
   some "key",
   fun _ => true,
   .ok (),
   none,
   1000,
   "UNKNOWN",
   true,
   [],
   c1mm,
   false,
   fun _ => [],
   fun _ => none,
   .ok ⟨"files/r1", "uri-r1"⟩,
   fun _ => .ok (some "resp"),
   fun _ => some (.obj [("timestamp", .num 5), ("status", .str "OK"),
     ("confidence", .num 1)]),
   3,
   2,
   mkRat 7 10⟩

/-- A structurally valid result whose self-reported confidence is 2/5. -/
def C2p : Obj :=
  [("version", .str "NS-DK-2.1"), ("timestamp", .str "T"), ("status", .str "OK"),
   ("risk_level", .str "NONE"), ("findings", .arr []),
   ("confidence", .num (mkRat 2 5)), ("notes", .str NOTES_IMMUTABLE)]

/-- A finding whose evidence document is the placeholder token (page and
field are sound). -/
def c3find : JVal :=
  .obj [("type", .str "DATA_VALUE_INCONSISTENCY"),
        ("evidence", .obj [("document", .str "UNKNOWN"), ("page", .str "p4"),
          ("field", .str "Balance")])]

def C3p : Obj := [("status", .str "OK"), ("findings", .arr [c3find])]

/-- Audit environment identical to `c1env` except that the model answers
with one well-formed finding and full confidence. -/
def w3env : AuditEnv :=
  ⟨"2026-02-01T00:00:00Z",
   some "key",
   fun _ => true,
   .ok (),
   none,
   1000,
   "UNKNOWN",
   true,
   [],
   c1mm,
   false,
   fun _ => [],
   fun _ => none,
   .ok ⟨"files/r1", "uri-r1"⟩,
   fun _ => .ok (some "resp"),
   fun _ => some (.obj [("status", .str "RISK_DETECTED"), ("risk_level", .str "HIGH"),
     ("findings", .arr [c3find]), ("confidence", .num 1)]),
   3,
   2,
   mkRat 7 10⟩

/-- The claim scenario: a risk claim with no findings at all. -/
def C5p : Obj :=
  [("status", .str "RISK_DETECTED"), ("confidence", .num (mkRat 19 20)),
   ("findings", .arr [])]

/-- A fully valid payload (confidence 1) for the idempotence witness. -/
def C9p : Obj :=
  [("version", .str "NS-DK-2.1"), ("timestamp", .str "T"), ("status", .str "OK"),
   ("risk_level", .str "NONE"), ("findings", .arr []), ("confidence", .num 1),
   ("notes", .str NOTES_IMMUTABLE)]

/-- A payload carrying a key outside the wire contract. -/
def C10p : Obj :=
  [("extra", .str "model-extra"), ("confidence", .num 1)]

/-- Uploader that fails on the first file and would succeed on the second. -/
def c8upload : String → Except PyErr Uploaded := fun path =>
  if path = "a.pdf" then .error (pyErr "ValueError" "quota") else .ok ⟨"files/b", "uri-b"⟩

def c8env : MMEnv :=
  ⟨true, [⟨"a.pdf", 10, 0, true⟩, ⟨"b.pdf", 20, 0, true⟩], fun _ => false, c8upload, 0⟩

/-- Model operation that always fails with a clear client-side error. -/
def alwaysTypeError : Nat → Except PyErr String := fun _ => .error (pyErr "TypeError" "bad arg")

/-- Evidence-document of a finding, for stating the C3 counterexample. -/
def docOf (g : JVal) : JVal :=
  match g with
  | .obj go =>
    (match evidenceOf go with
     | .obj eo => pyGet eo "document"
     | _ => .null)
  | _ => .null


-- ==========================================================
-- Association-list (dict) lemmas
-- ==========================================================

theorem getKey_setKey (o : Obj) (k : String) (v : JVal) (k' : String) :
    getKey (setKey o k v) k' = if k = k' then some v else getKey o k' := by
  induction o with
  | nil => simp [setKey, getKey]
  | cons kv rest ih =>
    obtain ⟨k₀, v₀⟩ := kv
    by_cases h₀ : k₀ = k
    · subst h₀
      by_cases h₁ : k₀ = k'
      · subst h₁; simp [setKey, getKey]
      · simp [setKey, getKey, h₁]
    · by_cases h₁ : k₀ = k'
      · subst h₁
        have : k ≠ k₀ := fun h => h₀ h.symm
        simp [setKey, getKey, h₀, this]
      · simp [setKey, getKey, h₀, h₁, ih]

theorem getKey_setKey_self (o : Obj) (k : String) (v : JVal) :
    getKey (setKey o k v) k = some v := by
  simp [getKey_setKey]

theorem getKey_setKey_ne (o : Obj) (k : String) (v : JVal) (k' : String) (h : k ≠ k') :
    getKey (setKey o k v) k' = getKey o k' := by
  simp [getKey_setKey, h]

theorem pyGet_setKey (o : Obj) (k : String) (v : JVal) (k' : String) :
    pyGet (setKey o k v) k' = if k = k' then v else pyGet o k' := by
  by_cases h : k = k' <;> simp [pyGet, getKey_setKey, h]

theorem setKey_of_getKey_eq (o : Obj) (k : String) (v : JVal) (h : getKey o k = some v) :
    setKey o k v = o := by
  induction o with
  | nil => simp [getKey] at h
  | cons kv rest ih =>
    obtain ⟨k₀, v₀⟩ := kv
    by_cases h₀ : k₀ = k
    · subst h₀
      simp [getKey] at h
      simp [setKey, h]
    · simp [getKey, h₀] at h
      simp [setKey, h₀, ih h]

theorem setKey_ne_nil (o : Obj) (k : String) (v : JVal) : setKey o k v ≠ [] := by
  cases o with
  | nil => simp [setKey]
  | cons kv rest =>
    obtain ⟨k₀, v₀⟩ := kv
    by_cases h₀ : k₀ = k <;> simp [setKey, h₀]

-- ==========================================================
-- Character-level lemmas: a numeric rendering is never the
-- placeholder token
-- ==========================================================


theorem digitChar_mem (d : Nat) : digitChar d ∈ numTokenChars := by
  have h : d % 10 < 10 := Nat.mod_lt _ (by norm_num)
  unfold digitChar
  set m := d % 10 with hm
  interval_cases m <;> decide

theorem natDigitsAux_mem (fuel : Nat) : ∀ (n : Nat) (acc : List Char),
    (∀ c ∈ acc, c ∈ numTokenChars) → ∀ c ∈ natDigitsAux fuel n acc, c ∈ numTokenChars := by
  induction fuel with
  | zero => intro n acc hacc c hc; simpa [natDigitsAux] using hacc c hc
  | succ fuel ih =>
    intro n acc hacc c hc
    unfold natDigitsAux at hc
    split at hc
    · rcases List.mem_cons.mp hc with h | h
      · subst h; exact digitChar_mem n
      · exact hacc c h
    · refine ih (n / 10) (digitChar (n % 10) :: acc) ?_ c hc
      intro c' hc'
      rcases List.mem_cons.mp hc' with h | h
      · subst h; exact digitChar_mem _
      · exact hacc c' h

theorem natChars_mem (n : Nat) : ∀ c ∈ natChars n, c ∈ numTokenChars :=
  natDigitsAux_mem (n + 1) n [] (by intro c hc; cases hc)

theorem intChars_mem (i : Int) : ∀ c ∈ intChars i, c ∈ numTokenChars := by
  intro c hc
  unfold intChars at hc
  split at hc
  · rcases List.mem_cons.mp hc with h | h
    · subst h; decide
    · exact natChars_mem _ c h
  · exact natChars_mem _ c hc

theorem ratChars_mem (q : ℚ) : ∀ c ∈ ratChars q, c ∈ numTokenChars := by
  intro c hc
  unfold ratChars at hc
  split at hc
  · exact intChars_mem _ c hc
  · rcases List.mem_append.mp hc with h | h
    · exact intChars_mem _ c h
    · rcases List.mem_cons.mp h with h' | h'
      · subst h'; decide
      · exact natChars_mem _ c h'

theorem pyStripL_subset {l : List Char} {c : Char} (hc : c ∈ pyStripL l) : c ∈ l := by
  unfold pyStripL at hc
  rw [List.mem_reverse] at hc
  have h1 := (List.dropWhile_sublist isSpaceChar).subset hc
  rw [List.mem_reverse] at h1
  exact (List.dropWhile_sublist isSpaceChar).subset h1

theorem upChar_numToken_ne_U {c : Char} (h : c ∈ numTokenChars) : upChar c ≠ 'U' := by
  fin_cases h <;> decide

/-- The stripped upper-cased rendering of a number can never be the
placeholder token (it contains no letter at all). -/
theorem pyStr_num_ne_unknown (q : ℚ) :
    pyUpperS (pyStripS (pyStr (.num q))) ≠ "UNKNOWN" := by
  intro h
  have hdata : (pyStripL (ratChars q)).map upChar = "UNKNOWN".data := by
    have h' := congrArg String.data h
    simpa [pyUpperS, pyStripS, pyStr] using h'
  have hU : 'U' ∈ (pyStripL (ratChars q)).map upChar := by
    rw [hdata]; decide
  rcases List.mem_map.mp hU with ⟨c, hc, hcu⟩
  exact upChar_numToken_ne_U (ratChars_mem q c (pyStripL_subset hc)) hcu

-- ==========================================================
-- Coercion lemmas
-- ==========================================================

theorem intOfRat_intCast (n : ℤ) : intOfRat (n : ℚ) = n := by
  simp [intOfRat, Rat.num_intCast, Rat.den_intCast, Int.tdiv_one]

theorem coerce_int_or_keep_idem (x : JVal) :
    coerce_int_or_keep (coerce_int_or_keep x) = coerce_int_or_keep x := by
  cases x with
  | num q => simp [coerce_int_or_keep, intOfRat_intCast]
  | bool b =>
    cases b <;>
      simp [coerce_int_or_keep, intOfRat, Rat.num_ofNat, Rat.den_ofNat, Int.tdiv_one]
  | str s =>
    cases hp : parsePyInt s with
    | none => simp [coerce_int_or_keep, hp]
    | some n => simp [coerce_int_or_keep, hp, intOfRat_intCast]
  | null => rfl
  | arr xs => rfl
  | obj xs => rfl

theorem coerce_int_or_keep_not_null {x : JVal} (hx : x.isNull = false) :
    (coerce_int_or_keep x).isNull = false := by
  cases x with
  | str s => cases hp : parsePyInt s <;> simp [coerce_int_or_keep, hp, JVal.isNull]
  | null => simp [JVal.isNull] at hx
  | _ => simp [coerce_int_or_keep, JVal.isNull]

theorem coerce_int_or_keep_check {x : JVal}
    (hx : (pyUpperS (pyStripS (pyStr x)) != "UNKNOWN") = true) :
    (pyUpperS (pyStripS (pyStr (coerce_int_or_keep x))) != "UNKNOWN") = true := by
  cases x with
  | num q => simpa [coerce_int_or_keep, bne_iff_ne] using pyStr_num_ne_unknown _
  | bool b => simpa [coerce_int_or_keep, bne_iff_ne] using pyStr_num_ne_unknown _
  | str s =>
    cases hp : parsePyInt s with
    | none => simpa [coerce_int_or_keep, hp] using hx
    | some n => simpa [coerce_int_or_keep, hp, bne_iff_ne] using pyStr_num_ne_unknown _
  | null => simpa [coerce_int_or_keep] using hx
  | arr xs => simpa [coerce_int_or_keep] using hx
  | obj xs => simpa [coerce_int_or_keep] using hx

-- ==========================================================
-- Evidence-gate fixed-point lemmas
-- ==========================================================

theorem keepFinding_fixed {f f' : JVal} (h : keepFinding f = some f') :
    keepFinding f' = some f' := by
  cases f with
  | null => simp [keepFinding] at h
  | bool b => simp [keepFinding] at h
  | num q => simp [keepFinding] at h
  | str s => simp [keepFinding] at h
  | arr xs => simp [keepFinding] at h
  | obj fo =>
    cases hev : evidenceOf fo with
    | obj eo =>
      by_cases hchk : evChecks eo = true
      · have hf' : f' = .obj (setKey fo "evidence"
            (.obj (setKey eo "page" (coerce_int_or_keep (pyGet eo "page"))))) := by
          simp [keepFinding, hev, hchk] at h
          exact h.symm
        subst hf'
        have hpg : getKey (setKey eo "page" (coerce_int_or_keep (pyGet eo "page"))) "page" =
            some (coerce_int_or_keep (pyGet eo "page")) := getKey_setKey_self _ _ _
        have heo' : evidenceOf (setKey fo "evidence"
            (.obj (setKey eo "page" (coerce_int_or_keep (pyGet eo "page"))))) =
            .obj (setKey eo "page" (coerce_int_or_keep (pyGet eo "page"))) := by
          unfold evidenceOf
          rw [pyGet_setKey]
          simp [JVal.truthy, List.isEmpty_iff, setKey_ne_nil]
        simp only [evChecks, Bool.and_eq_true] at hchk
        obtain ⟨⟨⟨⟨hdoc, hfield⟩, hnull⟩, hpchk⟩, hfchk⟩ := hchk
        have hchk' : evChecks (setKey eo "page" (coerce_int_or_keep (pyGet eo "page"))) = true := by
          simp only [evChecks, Bool.and_eq_true]
          refine ⟨⟨⟨⟨?_, ?_⟩, ?_⟩, ?_⟩, ?_⟩
          · rw [pyGet_setKey]; simpa using hdoc
          · rw [pyGet_setKey]; simpa using hfield
          · rw [pyGet_setKey]
            simp only [if_pos rfl]
            simp only [Bool.not_eq_true'] at hnull ⊢
            exact coerce_int_or_keep_not_null (by simpa [Bool.not_eq_true'] using hnull)
          · rw [pyGet_setKey]
            simp only [if_pos rfl]
            exact coerce_int_or_keep_check hpchk
          · rw [pyGet_setKey]; simpa using hfchk
        simp only [keepFinding, heo', hchk', if_true]
        have h1 : pyGet (setKey eo "page" (coerce_int_or_keep (pyGet eo "page"))) "page" =
            coerce_int_or_keep (pyGet eo "page") := by
          rw [pyGet_setKey]; simp
        rw [h1, coerce_int_or_keep_idem]
        rw [setKey_of_getKey_eq _ _ _ hpg]
        rw [setKey_of_getKey_eq _ _ _ (getKey_setKey_self _ _ _)]
      · simp [keepFinding, hev, hchk] at h
    | null => simp [keepFinding, hev] at h
    | bool b => simp [keepFinding, hev] at h
    | num q => simp [keepFinding, hev] at h
    | str s => simp [keepFinding, hev] at h
    | arr xs => simp [keepFinding, hev] at h

theorem filterMap_keepFinding_stable (l : List JVal) :
    (l.filterMap keepFinding).filterMap keepFinding = l.filterMap keepFinding := by
  induction l with
  | nil => rfl
  | cons f fs ih =>
    cases h : keepFinding f with
    | none => simp [List.filterMap_cons, h, ih]
    | some f' => simp [List.filterMap_cons, h, keepFinding_fixed h, ih]

-- ==========================================================
-- Gate idempotence lemmas
-- ==========================================================

theorem isRiskStatus_downgrade (p : Obj) : isRiskStatus (downgradeRisk p) = false := by
  simp [isRiskStatus, downgradeRisk, pyGet_setKey]

theorem getKey_downgrade_findings (p : Obj) :
    getKey (downgradeRisk p) "findings" = getKey p "findings" := by
  unfold downgradeRisk
  rw [getKey_setKey_ne _ _ _ _ (by decide), getKey_setKey_ne _ _ _ _ (by decide),
    getKey_setKey_ne _ _ _ _ (by decide)]

theorem evidence_gateCore_findings (p : Obj) (fs : List JVal) :
    getKey (evidence_gateCore p fs) "findings" = some (.arr (fs.filterMap keepFinding)) := by
  unfold evidence_gateCore
  split
  · rw [getKey_downgrade_findings, getKey_setKey_self]
  · rw [getKey_setKey_self]

theorem evidence_gateObj_of_arr {p : Obj} {fs : List JVal}
    (h : getKey p "findings" = some (.arr fs)) :
    evidence_gateObj p = evidence_gateCore p fs := by
  unfold evidence_gateObj
  rw [h]

theorem evidence_gateObj_of_none {p : Obj} (h : getKey p "findings" = none) :
    evidence_gateObj p = evidence_gateCore p [] := by
  unfold evidence_gateObj
  rw [h]

theorem evidence_gateObj_fixed {C : Obj} {valid : List JVal}
    (hfind : getKey C "findings" = some (.arr valid))
    (hstable : valid.filterMap keepFinding = valid)
    (hcond : (isRiskStatus C && valid.isEmpty) = false) :
    evidence_gateObj C = C := by
  rw [evidence_gateObj_of_arr hfind]
  unfold evidence_gateCore
  rw [hstable, setKey_of_getKey_eq _ _ _ hfind, if_neg (by rw [hcond]; exact Bool.false_ne_true)]

theorem evidence_gateCore_guard (p : Obj) (fs : List JVal) :
    (isRiskStatus (evidence_gateCore p fs) && (fs.filterMap keepFinding).isEmpty) = false := by
  unfold evidence_gateCore
  by_cases h : (isRiskStatus (setKey p "findings" (.arr (fs.filterMap keepFinding))) &&
      (fs.filterMap keepFinding).isEmpty) = true
  · rw [if_pos h, isRiskStatus_downgrade, Bool.false_and]
  · rw [Bool.not_eq_true] at h
    rw [if_neg (by rw [h]; exact Bool.false_ne_true)]
    exact h

theorem evidence_gateCore_idem (p : Obj) (fs : List JVal) :
    evidence_gateObj (evidence_gateCore p fs) = evidence_gateCore p fs :=
  evidence_gateObj_fixed (evidence_gateCore_findings p fs)
    (filterMap_keepFinding_stable fs) (evidence_gateCore_guard p fs)

/-- Idempotence of the evidence gate on every payload whose `findings` entry
is a list or absent (in particular on every structurally valid payload).
A present non-list `findings` value is the one shape on which the source's
early return skips the downgrade check, so a second application is not a
no-op there. -/
theorem evidence_gate_idem {p : Obj}
    (h : getKey p "findings" = none ∨ ∃ fs, getKey p "findings" = some (.arr fs)) :
    evidence_gateObj (evidence_gateObj p) = evidence_gateObj p := by
  rcases h with h | ⟨fs, h⟩
  · rw [evidence_gateObj_of_none h]; exact evidence_gateCore_idem p []
  · rw [evidence_gateObj_of_arr h]; exact evidence_gateCore_idem p fs

theorem confidence_gate_of_lt {t : ℚ} {now : String} {p : Obj}
    (h : coerce_float (pyGet p "confidence") 0 < t) :
    confidence_gateObj t now p =
      empty_payload now "UNKNOWN" "NONE" (coerce_float (pyGet p "confidence") 0)
        "CONFIDENCE_GATE_ACTIVE" := by
  unfold confidence_gateObj
  rw [if_pos h]

theorem confidence_gate_of_ge {t : ℚ} {now : String} {p : Obj}
    (h : ¬ coerce_float (pyGet p "confidence") 0 < t) :
    confidence_gateObj t now p = p := by
  unfold confidence_gateObj
  rw [if_neg h]

theorem pyGet_empty_payload_confidence (now s r : String) (c : ℚ) (ex : String) :
    pyGet (empty_payload now s r c ex) "confidence" = .num c := by
  simp [empty_payload, pyGet, getKey]

/-- Idempotence of the confidence gate, unconditionally (for a fixed clock
reading): when the gate fires, the replacement's measured confidence is the
same value, so a second application reproduces the same replacement; when it
does not fire, the payload is returned unchanged. -/
theorem confidence_gate_idem (t : ℚ) (now : String) (p : Obj) :
    confidence_gateObj t now (confidence_gateObj t now p) = confidence_gateObj t now p := by
  by_cases h : coerce_float (pyGet p "confidence") 0 < t
  · rw [confidence_gate_of_lt h, confidence_gate_of_lt
      (by rw [pyGet_empty_payload_confidence]; simpa [coerce_float] using h),
      pyGet_empty_payload_confidence]
    simp [coerce_float]
  · rw [confidence_gate_of_ge h, confidence_gate_of_ge h]

-- ==========================================================
-- Frame and field lemmas for the gates
-- ==========================================================

theorem getKey_downgrade_ne (p : Obj) (k : String)
    (h1 : k ≠ "status") (h2 : k ≠ "risk_level") (h3 : k ≠ "confidence") :
    getKey (downgradeRisk p) k = getKey p k := by
  unfold downgradeRisk
  rw [getKey_setKey_ne _ _ _ _ (Ne.symm h3), getKey_setKey_ne _ _ _ _ (Ne.symm h2),
    getKey_setKey_ne _ _ _ _ (Ne.symm h1)]

theorem getKey_evidence_gateCore_ne (p : Obj) (fs : List JVal) (k : String)
    (h0 : k ≠ "findings") (h1 : k ≠ "status") (h2 : k ≠ "risk_level")
    (h3 : k ≠ "confidence") :
    getKey (evidence_gateCore p fs) k = getKey p k := by
  unfold evidence_gateCore
  split
  · rw [getKey_downgrade_ne _ _ h1 h2 h3, getKey_setKey_ne _ _ _ _ (Ne.symm h0)]
  · rw [getKey_setKey_ne _ _ _ _ (Ne.symm h0)]

theorem getKey_evidence_gateObj_ne (p : Obj) (k : String)
    (h0 : k ≠ "findings") (h1 : k ≠ "status") (h2 : k ≠ "risk_level")
    (h3 : k ≠ "confidence") :
    getKey (evidence_gateObj p) k = getKey p k := by
  unfold evidence_gateObj
  cases hf : getKey p "findings" with
  | none => exact getKey_evidence_gateCore_ne p [] k h0 h1 h2 h3
  | some v =>
    cases v with
    | arr fs => exact getKey_evidence_gateCore_ne p fs k h0 h1 h2 h3
    | null => exact getKey_setKey_ne _ _ _ _ (Ne.symm h0)
    | bool b => exact getKey_setKey_ne _ _ _ _ (Ne.symm h0)
    | num q => exact getKey_setKey_ne _ _ _ _ (Ne.symm h0)
    | str s => exact getKey_setKey_ne _ _ _ _ (Ne.symm h0)
    | obj o => exact getKey_setKey_ne _ _ _ _ (Ne.symm h0)

theorem pyGet_downgrade_status (p : Obj) :
    pyGet (downgradeRisk p) "status" = .str "UNKNOWN" := by
  simp [downgradeRisk, pyGet_setKey]

theorem pyGet_downgrade_risk (p : Obj) :
    pyGet (downgradeRisk p) "risk_level" = .str "NONE" := by
  simp [downgradeRisk, pyGet_setKey]

theorem pyGet_downgrade_conf (p : Obj) :
    pyGet (downgradeRisk p) "confidence" =
      .num (min (coerce_float (pyGet p "confidence") 0) 0.5) := by
  simp [downgradeRisk, pyGet_setKey]

-- ==========================================================
-- Structural validity lemmas
-- ==========================================================


theorem statusOK_str (s : String) : statusOK (.str s) = ALLOWED_STATUS.contains s := rfl

theorem riskOK_str (s : String) : riskOK (.str s) = ALLOWED_RISK.contains s := rfl

theorem structValid_imp_weak {p : Obj} (h : structValid p = true) :
    structValidW p = true := by
  simp only [structValid, Bool.and_eq_true] at h
  obtain ⟨⟨⟨⟨⟨⟨h1, h2⟩, h3⟩, h4⟩, h5⟩, h6⟩, h7⟩ := h
  have h2' : (getKey p "timestamp").isSome = true := by
    cases hts : getKey p "timestamp" with
    | none => rw [pyGet, hts] at h2; simp [isStrVal] at h2
    | some v => rfl
  simp only [structValidW, Bool.and_eq_true]
  exact ⟨⟨⟨⟨⟨⟨h1, h2'⟩, h3⟩, h4⟩, h5⟩, h6⟩, h7⟩

theorem structValid_empty (now s r : String) (c : ℚ) (ex : String)
    (hs : ALLOWED_STATUS.contains s = true) (hr : ALLOWED_RISK.contains r = true) :
    structValid (empty_payload now s r c ex) = true := by
  simp [structValid, empty_payload, pyGet, getKey, isStrVal, isArrVal, isNumVal,
    statusOK_str, riskOK_str]
  exact ⟨by simpa using hs, by simpa using hr⟩

theorem isArrVal_coerceFindings (v : JVal) : isArrVal (coerceFindings v) = true := by
  cases v <;> rfl

theorem contains_if_self (l : List String) (x d : String) (hd : l.contains d = true) :
    l.contains (if l.contains x = true then x else d) = true := by
  split
  · next h => exact h
  · exact hd

theorem structValidW_normalizeCore (now : String) (p : Obj) :
    structValidW (normalizeCore now p) = true := by
  unfold normalizeCore
  simp only [structValidW, Bool.and_eq_true]
  refine ⟨⟨⟨⟨⟨⟨?_, ?_⟩, ?_⟩, ?_⟩, ?_⟩, ?_⟩, ?_⟩
  · simp [pyGet_setKey, isStrVal]
  · simp [getKey_setKey]
  · simp only [pyGet_setKey, reduceIte, statusOK_str]
    exact contains_if_self _ _ _ (by decide)
  · simp only [pyGet_setKey, reduceIte, riskOK_str]
    exact contains_if_self _ _ _ (by decide)
  · simp [pyGet_setKey, isArrVal_coerceFindings]
  · simp [pyGet_setKey, isNumVal]
  · simp [pyGet_setKey, isStrVal]

theorem pyGet_setKey_ne (o : Obj) (k : String) (v : JVal) (k' : String) (h : k ≠ k') :
    pyGet (setKey o k v) k' = pyGet o k' := by
  unfold pyGet
  rw [getKey_setKey_ne _ _ _ _ h]

theorem pyGet_downgrade_ne (p : Obj) (k : String)
    (h1 : k ≠ "status") (h2 : k ≠ "risk_level") (h3 : k ≠ "confidence") :
    pyGet (downgradeRisk p) k = pyGet p k := by
  unfold pyGet
  rw [getKey_downgrade_ne _ _ h1 h2 h3]

theorem isArrVal_eq_arr {v : JVal} (h : isArrVal v = true) : ∃ xs, v = .arr xs := by
  cases v with
  | arr xs => exact ⟨xs, rfl⟩
  | null => simp [isArrVal] at h
  | bool b => simp [isArrVal] at h
  | num q => simp [isArrVal] at h
  | str s => simp [isArrVal] at h
  | obj o => simp [isArrVal] at h

theorem findings_arr_of_structValidW {p : Obj} (h : structValidW p = true) :
    ∃ fs, getKey p "findings" = some (.arr fs) := by
  simp only [structValidW, Bool.and_eq_true] at h
  obtain ⟨xs, hxs⟩ := isArrVal_eq_arr h.1.1.2
  cases hg : getKey p "findings" with
  | none => rw [pyGet, hg] at hxs; simp at hxs
  | some v =>
    rw [pyGet, hg] at hxs
    simp at hxs
    exact ⟨xs, congrArg some hxs⟩

theorem structValidW_evidence_gateCore {p : Obj} (fs : List JVal)
    (h : structValidW p = true) :
    structValidW (evidence_gateCore p fs) = true := by
  simp only [structValidW, Bool.and_eq_true] at h
  obtain ⟨⟨⟨⟨⟨⟨h1, h2⟩, h3⟩, h4⟩, h5⟩, h6⟩, h7⟩ := h
  simp only [structValidW, Bool.and_eq_true]
  unfold evidence_gateCore
  split
  · refine ⟨⟨⟨⟨⟨⟨?_, ?_⟩, ?_⟩, ?_⟩, ?_⟩, ?_⟩, ?_⟩
    · rw [pyGet_downgrade_ne _ _ (by decide) (by decide) (by decide),
        pyGet_setKey_ne _ _ _ _ (by decide)]
      exact h1
    · rw [getKey_downgrade_ne _ _ (by decide) (by decide) (by decide),
        getKey_setKey_ne _ _ _ _ (by decide)]
      exact h2
    · rw [pyGet_downgrade_status]; decide
    · rw [pyGet_downgrade_risk]; decide
    · rw [pyGet, getKey_downgrade_findings, getKey_setKey_self]; rfl
    · rw [pyGet_downgrade_conf]; rfl
    · rw [pyGet_downgrade_ne _ _ (by decide) (by decide) (by decide),
        pyGet_setKey_ne _ _ _ _ (by decide)]
      exact h7
  · refine ⟨⟨⟨⟨⟨⟨?_, ?_⟩, ?_⟩, ?_⟩, ?_⟩, ?_⟩, ?_⟩
    · rw [pyGet_setKey_ne _ _ _ _ (by decide)]; exact h1
    · rw [getKey_setKey_ne _ _ _ _ (by decide)]; exact h2
    · rw [pyGet_setKey_ne _ _ _ _ (by decide)]; exact h3
    · rw [pyGet_setKey_ne _ _ _ _ (by decide)]; exact h4
    · rw [pyGet, getKey_setKey_self]; rfl
    · rw [pyGet_setKey_ne _ _ _ _ (by decide)]; exact h6
    · rw [pyGet_setKey_ne _ _ _ _ (by decide)]; exact h7

theorem structValidW_evidence_gate {p : Obj} (h : structValidW p = true) :
    structValidW (evidence_gateObj p) = true := by
  obtain ⟨fs, hg⟩ := findings_arr_of_structValidW h
  rw [evidence_gateObj_of_arr hg]
  exact structValidW_evidence_gateCore fs h

theorem structValidW_confidence_gate (t : ℚ) (now : String) {p : Obj}
    (h : structValidW p = true) :
    structValidW (confidence_gateObj t now p) = true := by
  by_cases hc : coerce_float (pyGet p "confidence") 0 < t
  · rw [confidence_gate_of_lt hc]
    exact structValid_imp_weak (structValid_empty _ _ _ _ _ (by decide) (by decide))
  · rw [confidence_gate_of_ge hc]; exact h

theorem structValidW_setKey_notes (p : Obj) (s : String) (h : structValidW p = true) :
    structValidW (setKey p "notes" (.str s)) = true := by
  simp only [structValidW, Bool.and_eq_true] at h
  obtain ⟨⟨⟨⟨⟨⟨h1, h2⟩, h3⟩, h4⟩, h5⟩, h6⟩, h7⟩ := h
  simp only [structValidW, Bool.and_eq_true]
  refine ⟨⟨⟨⟨⟨⟨?_, ?_⟩, ?_⟩, ?_⟩, ?_⟩, ?_⟩, ?_⟩
  · rw [pyGet_setKey_ne _ _ _ _ (by decide)]; exact h1
  · rw [getKey_setKey_ne _ _ _ _ (by decide)]; exact h2
  · rw [pyGet_setKey_ne _ _ _ _ (by decide)]; exact h3
  · rw [pyGet_setKey_ne _ _ _ _ (by decide)]; exact h4
  · rw [pyGet_setKey_ne _ _ _ _ (by decide)]; exact h5
  · rw [pyGet_setKey_ne _ _ _ _ (by decide)]; exact h6
  · rw [pyGet, getKey_setKey_self]; rfl

theorem structValidW_notesTrace {env : AuditEnv} {p q : Obj}
    (hq : notesTrace env p = .ok q) (h : structValidW p = true) :
    structValidW q = true := by
  unfold notesTrace at hq
  split at hq
  · cases hq
  · split at hq
    · cases hq
      exact structValidW_setKey_notes _ _ h
    · cases hq
      exact h

theorem normalize_ok {now : String} {v : JVal} {p : Obj}
    (h : normalize_contract now v = .ok p) :
    ∃ p0, pyDict v = .ok p0 ∧ p = normalizeCore now p0 := by
  unfold normalize_contract at h
  cases hd : pyDict v with
  | error e => rw [hd] at h; simp [Except.map] at h
  | ok p0 =>
    rw [hd] at h
    simp [Except.map] at h
    exact ⟨p0, rfl, h.symm⟩

set_option maxHeartbeats 2000000 in
theorem run_gemini_audit_ok_structValidW {env : AuditEnv} {p : Obj}
    (h : run_gemini_audit env = .ok p) : structValidW p = true := by
  unfold run_gemini_audit at h
  repeat' split at h
  any_goals cases h
  all_goals
    try exact structValid_imp_weak (structValid_empty _ _ _ _ _ (by decide) (by decide))
  rename_i raw payload hnorm
  obtain ⟨p0, hd, hpe⟩ := normalize_ok hnorm
  subst hpe
  exact structValidW_notesTrace h
    (structValidW_confidence_gate _ _ (structValidW_evidence_gate (structValidW_normalizeCore _ _)))

-- ==========================================================
-- Findings-list helpers (for the evidence invariant)
-- ==========================================================


theorem keepFinding_evidenceOK {f f' : JVal} (h : keepFinding f = some f') :
    evidenceOK f' = true := by
  have hf := keepFinding_fixed h
  cases f' with
  | obj fo =>
    cases hev : evidenceOf fo with
    | obj eo =>
      by_cases hchk : evChecks eo = true
      · simp [evidenceOK, hev, hchk]
      · simp [keepFinding, hev, hchk] at hf
    | null => simp [keepFinding, hev] at hf
    | bool b => simp [keepFinding, hev] at hf
    | num q => simp [keepFinding, hev] at hf
    | str s => simp [keepFinding, hev] at hf
    | arr xs => simp [keepFinding, hev] at hf
  | null => simp [keepFinding] at hf
  | bool b => simp [keepFinding] at hf
  | num q => simp [keepFinding] at hf
  | str s => simp [keepFinding] at hf
  | arr xs => simp [keepFinding] at hf

theorem findingsList_evidence_gateCore (p : Obj) (fs : List JVal) :
    findingsList (evidence_gateCore p fs) = fs.filterMap keepFinding := by
  unfold findingsList
  rw [evidence_gateCore_findings]

theorem mem_findingsList_evidence_gateObj (p : Obj) {g : JVal}
    (hg : g ∈ findingsList (evidence_gateObj p)) : evidenceOK g = true := by
  unfold evidence_gateObj at hg
  have core : ∀ fs, g ∈ findingsList (evidence_gateCore p fs) → evidenceOK g = true := by
    intro fs hmem
    rw [findingsList_evidence_gateCore] at hmem
    obtain ⟨f, _, hf⟩ := List.mem_filterMap.mp hmem
    exact keepFinding_evidenceOK hf
  cases hget : getKey p "findings" with
  | none => rw [hget] at hg; exact core [] hg
  | some v =>
    rw [hget] at hg
    cases v with
    | arr fs => exact core fs hg
    | null => rw [findingsList, getKey_setKey_self] at hg; cases hg
    | bool b => rw [findingsList, getKey_setKey_self] at hg; cases hg
    | num q => rw [findingsList, getKey_setKey_self] at hg; cases hg
    | str s => rw [findingsList, getKey_setKey_self] at hg; cases hg
    | obj o => rw [findingsList, getKey_setKey_self] at hg; cases hg

theorem findingsList_empty_payload (now s r : String) (c : ℚ) (ex : String) :
    findingsList (empty_payload now s r c ex) = [] := by
  simp [findingsList, empty_payload, getKey]

theorem findingsList_setKey_ne (p : Obj) (k : String) (v : JVal) (h : k ≠ "findings") :
    findingsList (setKey p k v) = findingsList p := by
  unfold findingsList
  rw [getKey_setKey_ne _ _ _ _ h]

theorem notesTrace_findings {env : AuditEnv} {p q : Obj} (h : notesTrace env p = .ok q) :
    findingsList q = findingsList p := by
  unfold notesTrace at h
  split at h
  · cases h
  · split at h
    · cases h; exact findingsList_setKey_ne _ _ _ (by decide)
    · cases h; rfl

theorem confidence_gate_findings (t : ℚ) (now : String) (p : Obj) :
    findingsList (confidence_gateObj t now p) = findingsList p ∨
    findingsList (confidence_gateObj t now p) = [] := by
  by_cases hc : coerce_float (pyGet p "confidence") 0 < t
  · right; rw [confidence_gate_of_lt hc, findingsList_empty_payload]
  · left; rw [confidence_gate_of_ge hc]

-- ==========================================================
-- Status helpers and frame lemmas
-- ==========================================================

theorem isRiskStatus_setKey_ne (p : Obj) (k : String) (v : JVal) (h : k ≠ "status") :
    isRiskStatus (setKey p k v) = isRiskStatus p := by
  unfold isRiskStatus
  rw [pyGet_setKey_ne _ _ _ _ h]


theorem getKey_normalizeCore_ne (now : String) (p : Obj) (k : String)
    (h1 : k ≠ "version") (h2 : k ≠ "timestamp") (h3 : k ≠ "status")
    (h4 : k ≠ "risk_level") (h5 : k ≠ "findings") (h6 : k ≠ "confidence")
    (h7 : k ≠ "notes") :
    getKey (normalizeCore now p) k = getKey p k := by
  unfold normalizeCore
  rw [getKey_setKey_ne _ _ _ _ (Ne.symm h7), getKey_setKey_ne _ _ _ _ (Ne.symm h6),
    getKey_setKey_ne _ _ _ _ (Ne.symm h5), getKey_setKey_ne _ _ _ _ (Ne.symm h4),
    getKey_setKey_ne _ _ _ _ (Ne.symm h3), getKey_setKey_ne _ _ _ _ (Ne.symm h2),
    getKey_setKey_ne _ _ _ _ (Ne.symm h1)]

-- ==========================================================
-- The gated pipeline (normalize → evidence gate → confidence gate)
-- ==========================================================


-- ==========================================================
-- Retry orchestrator characterization
-- ==========================================================

theorem cons_map_range_pow (base : ℚ) (m i : Nat) :
    base * 2 ^ i :: (List.range m).map (fun j => base * 2 ^ ((i + 1) + j)) =
    (List.range (m + 1)).map (fun j => base * 2 ^ (i + j)) := by
  rw [List.range_succ_eq_map, List.map_cons, List.map_map]
  refine congrArg₂ List.cons (by simp) ?_
  refine List.map_congr_left ?_
  intro a _
  simp only [Function.comp]
  have hx : (i + 1) + a = i + (a + 1) := by omega
  rw [hx]

theorem callModelAux_allfail {α : Type} (base : ℚ) (op : Nat → Except PyErr α)
    (e : Nat → PyErr) :
    ∀ (m i : Nat) (lastE : Option PyErr) (sleeps : List ℚ),
    (∀ j, j < m + 1 → op (i + j) = .error (e (i + j))) →
    callModelAux base op (m + 1) i lastE sleeps =
      (.error (pyErr "RuntimeError" ("MODEL_CALL_FAIL:" ++ (e (i + m)).typeName)),
       sleeps.reverse ++ (List.range (m + 1)).map (fun j => base * 2 ^ (i + j))) := by
  intro m
  induction m with
  | zero =>
    intro i lastE sleeps h
    have h0 : op i = .error (e i) := by simpa using h 0 (by omega)
    unfold callModelAux
    simp only [h0]
    unfold callModelAux
    simp [errName, List.range_succ]
  | succ m ih =>
    intro i lastE sleeps h
    have h0 : op i = .error (e i) := by simpa using h 0 (by omega)
    unfold callModelAux
    simp only [h0]
    have hshift : ∀ j, j < m + 1 → op ((i + 1) + j) = .error (e ((i + 1) + j)) := by
      intro j hj
      have := h (j + 1) (by omega)
      simpa [Nat.add_assoc, Nat.add_comm 1 j] using this
    rw [ih (i + 1) (some (e i)) (base * 2 ^ i :: sleeps) hshift]
    have hidx : (i + 1) + m = i + (m + 1) := by omega
    rw [hidx, List.reverse_cons, List.append_assoc, List.singleton_append,
      cons_map_range_pow]

theorem call_model_with_retries_allfail {α : Type} (n : Nat) (base : ℚ)
    (op : Nat → Except PyErr α) (e : Nat → PyErr) (h : ∀ j, j ≤ n → op j = .error (e j)) :
    call_model_with_retries n base op =
      (.error (pyErr "RuntimeError" ("MODEL_CALL_FAIL:" ++ (e n).typeName)),
       (List.range (n + 1)).map (fun j => base * 2 ^ j)) := by
  unfold call_model_with_retries
  have := callModelAux_allfail base op e n 0 none [] (by
    intro j hj
    simpa using h j (by omega))
  simpa using this

-- ==========================================================
-- Manifest manager: save happens exactly on success
-- ==========================================================

theorem ensureAux_saved (env : MMEnv) :
    ∀ (files : List PdfFile) (data : Obj) (refs : List RemoteRef),
    (ensureAux env files data refs).saved =
      (match (ensureAux env files data refs).result with
       | .ok _ => some (ensureAux env files data refs).data
       | .error _ => none) := by
  intro files
  induction files with
  | nil => intro data refs; rfl
  | cons p rest ih =>
    intro data refs
    unfold ensureAux
    split
    · exact ih _ _
    · split
      · rfl
      · exact ih _ _
      · split
        · rfl
        · exact ih _ _

theorem ensure_saved_iff_ok (env : MMEnv) (data : Obj) :
    (ensure_active_pdf_files env data).saved =
      (match (ensure_active_pdf_files env data).result with
       | .ok _ => some (ensure_active_pdf_files env data).data
       | .error _ => none) := by
  unfold ensure_active_pdf_files
  split
  · rfl
  · exact ensureAux_saved env env.files data []

-- ==========================================================
-- pyDict facts (totality analysis of the normalizer)
-- ==========================================================

theorem pyDict_obj (xs : Obj) : pyDict (.obj xs) = .ok xs := by
  cases xs with
  | nil => rfl
  | cons kv rest => rfl

theorem pyDict_falsy {v : JVal} (hv : v.truthy = false) : pyDict v = .ok [] := by
  unfold pyDict
  rw [hv]
  rfl

theorem pyDict_str {s : String} (hs : s ≠ "") :
    pyDict (.str s) = .error (pyErr "ValueError" "dictionary update sequence element") := by
  unfold pyDict
  have : (JVal.str s).truthy = true := by simpa [JVal.truthy] using hs
  rw [this]
  rfl

theorem normalize_contract_obj (now : String) (xs : Obj) :
    normalize_contract now (.obj xs) = .ok (normalizeCore now xs) := by
  unfold normalize_contract
  rw [pyDict_obj]
  rfl

theorem normalize_contract_falsy (now : String) {v : JVal} (hv : v.truthy = false) :
    normalize_contract now v = .ok (normalizeCore now []) := by
  unfold normalize_contract
  rw [pyDict_falsy hv]
  rfl

theorem normalize_contract_str (now : String) {s : String} (hs : s ≠ "") :
    normalize_contract now (.str s) =
      .error (pyErr "ValueError" "dictionary update sequence element") := by
  unfold normalize_contract
  rw [pyDict_str hs]
  rfl

-- ==========================================================
-- Pipeline-level evidence invariant
-- ==========================================================

set_option maxHeartbeats 2000000 in
theorem run_findings_evidenceOK {env : AuditEnv} {q : Obj} {g : JVal}
    (hb : run_gemini_audit env = .ok q) (hg : g ∈ findingsList q) :
    evidenceOK g = true := by
  unfold run_gemini_audit at hb
  repeat' split at hb
  any_goals cases hb
  all_goals try (rw [findingsList_empty_payload] at hg; cases hg)
  have hfq := notesTrace_findings hb
  rw [hfq] at hg
  rcases confidence_gate_findings env.threshold env.now (evidence_gateObj _) with hcf | hcf
  · rw [hcf] at hg
    exact mem_findingsList_evidence_gateObj _ hg
  · rw [hcf] at hg
    cases hg

theorem audit_findings_evidenceOK {env : AuditEnv} {path : String} {g : JVal}
    (hg : g ∈ findingsList (audit_credit_report env path)) : evidenceOK g = true := by
  unfold audit_credit_report at hg
  cases hb : audit_body env path with
  | error e =>
    rw [hb] at hg
    rw [findingsList_empty_payload] at hg
    cases hg
  | ok q =>
    rw [hb] at hg
    unfold audit_body at hb
    repeat' split at hb
    any_goals cases hb
    all_goals try (rw [findingsList_empty_payload] at hg; cases hg)
    exact run_findings_evidenceOK hb hg

-- ==========================================================
-- Concrete payloads and oracle environments for the claim
-- witnesses and counterexamples
-- ==========================================================


-- ==========================================================
-- CLAIMS
-- ==========================================================

/-- C2: for every structurally valid result and every threshold, a
confidence strictly below the threshold makes the confidence gate replace
the whole result with the canonical unresolved-empty payload — status
`UNKNOWN` (the spec's `UNRESOLVED`), risk `NONE`, findings empty —
preserving only the measured confidence and tagging the
`CONFIDENCE_GATE_ACTIVE` diagnostic suffix; consequently every output of
the gated pipeline (normalize → evidence gate → confidence gate) whose
confidence is below the threshold has status `UNKNOWN` and empty findings. -/
theorem C2_confidence_floor (t : ℚ) (now : String) (p : Obj)
    (_hv : structValid p = true)
    (hlt : coerce_float (pyGet p "confidence") 0 < t) :
    confidence_gateObj t now p =
      empty_payload now "UNKNOWN" "NONE" (coerce_float (pyGet p "confidence") 0)
        "CONFIDENCE_GATE_ACTIVE" ∧
    (∀ (raw : JVal) (q : Obj), pipelineGated t now raw = .ok q →
      coerce_float (pyGet q "confidence") 0 < t →
      pyGet q "status" = .str "UNKNOWN" ∧ pyGet q "findings" = .arr []) := by
  refine ⟨confidence_gate_of_lt hlt, ?_⟩
  intro raw q hq hqlt
  unfold pipelineGated at hq
  cases hn : normalize_contract now raw with
  | error e => rw [hn] at hq; simp [Except.map] at hq
  | ok p1 =>
    rw [hn] at hq
    simp only [Except.map, Except.ok.injEq] at hq
    subst hq
    by_cases hc : coerce_float (pyGet (evidence_gateObj p1) "confidence") 0 < t
    · rw [confidence_gate_of_lt hc]
      constructor
      · simp [empty_payload, pyGet, getKey]
      · simp [empty_payload, pyGet, getKey]
    · rw [confidence_gate_of_ge hc] at hqlt
      exact absurd hqlt hc

theorem C2_confidence_floor_witness :
    confidence_gateObj (mkRat 7 10) "T0" C2p =
      empty_payload "T0" "UNKNOWN" "NONE" (coerce_float (pyGet C2p "confidence") 0)
        "CONFIDENCE_GATE_ACTIVE" :=
  (C2_confidence_floor (mkRat 7 10) "T0" C2p (by decide) (by decide)).1

/-- C4 counterexample: the normalizer is not total — a bare (non-empty)
string input makes `dict(payload or {})` raise `ValueError`, so
`normalize(x)` raises instead of returning the canonical unresolved-empty
result; only the orchestrator's outer boundary converts this into a
`KERNEL_FAIL` payload. -/
theorem C4_counterexample :
    normalize_contract "T0" (.str "not an object") =
      .error (pyErr "ValueError" "dictionary update sequence element") :=
  normalize_contract_str "T0" (by decide)

/-- C4 (amended): the normalizer returns normally on every mapping input
and treats every falsy input (`None`, `[]`, `""`, `0`, `False`) as the
empty mapping, producing the canonical unknown-empty shape; but it has no
non-mapping early return, and a truthy non-mapping that is not a pair
sequence — in particular any non-empty string — raises (`ValueError`),
caught only at the `audit_credit_report` boundary. -/
theorem C4_amended_normalizer_totality :
    (∀ (now : String) (xs : Obj),
      normalize_contract now (.obj xs) = .ok (normalizeCore now xs)) ∧
    (∀ (now : String) (v : JVal), v.truthy = false →
      normalize_contract now v = .ok (normalizeCore now [])) ∧
    (∀ (now : String) (s : String), s ≠ "" →
      normalize_contract now (.str s) =
        .error (pyErr "ValueError" "dictionary update sequence element")) :=
  ⟨normalize_contract_obj,
   fun now _ hv => normalize_contract_falsy now hv,
   fun now _ hs => normalize_contract_str now hs⟩

theorem C4_amended_normalizer_totality_witness :
    normalize_contract "T0" JVal.null = .ok (normalizeCore "T0" []) ∧
    normalize_contract "T0" (.str "abc") =
      .error (pyErr "ValueError" "dictionary update sequence element") :=
  ⟨C4_amended_normalizer_totality.2.1 "T0" JVal.null (by decide),
   C4_amended_normalizer_totality.2.2 "T0" "abc" (by decide)⟩

/-- C5: if the status entering the evidence gate is `RISK_DETECTED` (the
status is unchanged by the filtering step, so this is also the status at
the downgrade check) and the findings list after placeholder filtering is
empty, the gate downgrades to status `UNKNOWN` (the spec's `UNRESOLVED`),
risk `NONE`, and confidence `min(confidence, 0.5)`. -/
theorem C5_risk_downgrade (p : Obj) (fs : List JVal)
    (hfs : getKey p "findings" = some (.arr fs))
    (hrisk : isRiskStatus p = true)
    (hempty : fs.filterMap keepFinding = []) :
    pyGet (evidence_gateObj p) "status" = .str "UNKNOWN" ∧
    pyGet (evidence_gateObj p) "risk_level" = .str "NONE" ∧
    pyGet (evidence_gateObj p) "confidence" =
      .num (min (coerce_float (pyGet p "confidence") 0) 0.5) := by
  rw [evidence_gateObj_of_arr hfs]
  unfold evidence_gateCore
  rw [hempty]
  have hcond : (isRiskStatus (setKey p "findings" (.arr ([] : List JVal))) &&
      ([] : List JVal).isEmpty) = true := by
    rw [isRiskStatus_setKey_ne _ _ _ (by decide), hrisk]
    rfl
  rw [if_pos hcond]
  refine ⟨pyGet_downgrade_status _, pyGet_downgrade_risk _, ?_⟩
  rw [pyGet_downgrade_conf, pyGet_setKey_ne _ _ _ _ (by decide)]

theorem C5_risk_downgrade_witness :
    (pyGet (evidence_gateObj C5p) "status" = .str "UNKNOWN" ∧
     pyGet (evidence_gateObj C5p) "risk_level" = .str "NONE" ∧
     pyGet (evidence_gateObj C5p) "confidence" =
       .num (min (coerce_float (pyGet C5p "confidence") 0) 0.5)) ∧
    min (coerce_float (pyGet C5p "confidence") 0) (0.5 : ℚ) ≤ 0.5 :=
  ⟨C5_risk_downgrade C5p [] rfl (by decide) rfl, min_le_right _ _⟩

/-- C6 counterexample: a truthy timestamp supplied by the raw (model)
input survives normalization verbatim — the pipeline does not force its
own clock value. -/
theorem C6_counterexample :
    (normalize_contract "2030-01-01T00:00:00Z"
        (.obj [("timestamp", .str "1999-01-01T00:00:00Z")])).map
      (fun p => pyGet p "timestamp") = .ok (.str "1999-01-01T00:00:00Z") := by
  rw [normalize_contract_obj]
  rfl

/-- C6 (amended): the normalizer forces `version` to the pipeline constant
regardless of input, but the timestamp is pipeline-generated only when the
raw input's `timestamp` is absent or falsy; a truthy timestamp from the
remote response is trusted and carried through. -/
theorem C6_amended_version_forced_timestamp_trusted (now : String) (p : Obj) :
    pyGet (normalizeCore now p) "version" = .str KERNEL_VERSION ∧
    pyGet (normalizeCore now p) "timestamp" =
      (if (pyGet p "timestamp").truthy then pyGet p "timestamp" else .str now) := by
  constructor
  · unfold normalizeCore
    simp [pyGet_setKey]
  · unfold normalizeCore
    simp [pyGet_setKey]

/-- C7 counterexample: a clear client-side error (`TypeError`, a terminal
failure by the claim's classification) is nevertheless retried: with
`MAX_RETRIES = 3` the orchestrator makes four attempts, sleeping the full
exponential ladder `[2, 4, 8, 16]`, and then raises a fresh
`RuntimeError` instead of propagating the original error immediately. -/
theorem C7_counterexample :
    call_model_with_retries 3 2 alwaysTypeError =
      (.error (pyErr "RuntimeError" "MODEL_CALL_FAIL:TypeError"),
       [2, 4, 8, 16]) := by
  have h := call_model_with_retries_allfail 3 2 alwaysTypeError
    (fun _ => pyErr "TypeError" "bad arg") (fun _ _ => rfl)
  rw [h]
  norm_num [List.range_succ]
  rfl

/-- C7 (amended): the retry orchestrator performs no error classification:
every failure — transient or terminal — is slept on (exponentially
increasing delay `base * 2 ^ i`) and retried until the attempt bound
`MAX_RETRIES + 1` is exhausted, after which a fresh `RuntimeError` tagged
`MODEL_CALL_FAIL:<class name of the last error>` is raised. -/
theorem C7_amended_retry_every_failure {α : Type} (n : Nat) (base : ℚ)
    (op : Nat → Except PyErr α) (e : Nat → PyErr)
    (h : ∀ j, j ≤ n → op j = .error (e j)) :
    call_model_with_retries n base op =
      (.error (pyErr "RuntimeError" ("MODEL_CALL_FAIL:" ++ (e n).typeName)),
       (List.range (n + 1)).map (fun j => base * 2 ^ j)) :=
  call_model_with_retries_allfail n base op e h

theorem C7_amended_retry_every_failure_witness :
    call_model_with_retries 1 1 alwaysTypeError =
      (.error (pyErr "RuntimeError" "MODEL_CALL_FAIL:TypeError"), [1, 2]) := by
  have h := C7_amended_retry_every_failure 1 1 alwaysTypeError
    (fun _ => pyErr "TypeError" "bad arg") (fun _ _ => rfl)
  rw [h]
  norm_num [List.range_succ]
  rfl

/-- C8 counterexample: with two eligible files whose uploads are needed,
a failure on the first file aborts the whole batch: the call raises the
upload error (the caller receives no reference list at all, although the
second file's upload would have succeeded), and the manifest is never
persisted. -/
theorem C8_counterexample :
    (ensure_active_pdf_files c8env []).result = .error (pyErr "ValueError" "quota") ∧
    (ensure_active_pdf_files c8env []).saved = none := by
  constructor <;> rfl

/-- C8 (amended): one file's upload failure aborts the batch — the
exception propagates, the remaining files are not visited, and the
manifest is not persisted; the manifest reaches stable storage exactly
when the whole directory scan succeeds, in which case the full final
in-memory manifest is written. -/
theorem C8_amended_abort_and_save (env : MMEnv) (data : Obj) :
    (ensure_active_pdf_files env data).saved =
      (match (ensure_active_pdf_files env data).result with
       | .ok _ => some (ensure_active_pdf_files env data).data
       | .error _ => none) :=
  ensure_saved_iff_ok env data

/-- C9: both gates are idempotent on every structurally valid input (the
evidence gate needs the findings entry to be a list — exactly what
structural validity gives — because the source's early return for a
non-list findings value skips the downgrade check; the confidence gate is
idempotent unconditionally for a fixed clock reading, since the
replacement payload preserves the measured confidence). -/
theorem C9_gates_idempotent (t : ℚ) (now : String) (p : Obj)
    (hv : structValid p = true) :
    evidence_gateObj (evidence_gateObj p) = evidence_gateObj p ∧
    confidence_gateObj t now (confidence_gateObj t now p) =
      confidence_gateObj t now p := by
  constructor
  · exact evidence_gate_idem
      (Or.inr (findings_arr_of_structValidW (structValid_imp_weak hv)))
  · exact confidence_gate_idem t now p

theorem C9_gates_idempotent_witness :
    structValid C9p = true ∧
    (evidence_gateObj (evidence_gateObj C9p) = evidence_gateObj C9p ∧
     confidence_gateObj (mkRat 7 10) "T0" (confidence_gateObj (mkRat 7 10) "T0" C9p) =
       confidence_gateObj (mkRat 7 10) "T0" C9p) :=
  ⟨by decide, C9_gates_idempotent (mkRat 7 10) "T0" C9p (by decide)⟩

/-- C10: the normalizer and the evidence gate write only contract keys, so
any key outside the seven contract fields is carried through unchanged —
and the confidence gate also preserves it whenever the gate does not fire,
so an extra field supplied by the remote response reaches the caller; the
output shape is not closed to the wire contract. -/
theorem C10_extra_keys_preserved (now : String) (t : ℚ) (p : Obj) (k : String)
    (hk : ¬ k ∈ CONTRACT_KEYS) :
    getKey (normalizeCore now p) k = getKey p k ∧
    getKey (evidence_gateObj p) k = getKey p k ∧
    (¬ coerce_float (pyGet p "confidence") 0 < t →
      getKey (confidence_gateObj t now p) k = getKey p k) := by
  simp only [CONTRACT_KEYS, List.mem_cons, List.mem_singleton, not_or] at hk
  obtain ⟨n1, n2, n3, n4, n5, n6, n7, -⟩ := hk
  refine ⟨?_, ?_, ?_⟩
  · exact getKey_normalizeCore_ne now p k n1 n2 n3 n4 n5 n6 n7
  · exact getKey_evidence_gateObj_ne p k n5 n3 n4 n6
  · intro hge
    rw [confidence_gate_of_ge hge]

theorem C10_extra_keys_preserved_witness :
    getKey (normalizeCore "T0" C10p) "extra" = getKey C10p "extra" ∧
    getKey (evidence_gateObj C10p) "extra" = getKey C10p "extra" ∧
    getKey (confidence_gateObj (mkRat 7 10) "T0" C10p) "extra" = getKey C10p "extra" := by
  have h := C10_extra_keys_preserved "T0" (mkRat 7 10) C10p "extra" (by decide)
  exact ⟨h.1, h.2.1, h.2.2 (by decide)⟩


/-- C3 counterexample: a finding whose evidence `document` is exactly the
placeholder token (case-insensitively) is kept by the evidence gate — the
source compares only `page` and `field` against the placeholder, never
`document`. -/
theorem C3_counterexample :
    (findingsList (evidence_gateObj C3p)).length = 1 ∧
    pyUpperS (pyStripS (pyStr (docOf
      ((findingsList (evidence_gateObj C3p)).headD .null)))) = "UNKNOWN" := by
  decide

/-- C3 (amended): the evidence gate keeps a finding only if it is a dict
whose evidence (after the `or {}` default) is a dict with truthy
`document` and `field`, a non-`None` `page`, and `page` and `field`
renderings that differ case-insensitively from the placeholder token; the
`document` value is never compared against the placeholder.  Kept findings
are not repaired beyond the integer coercion of `page`; consequently every
finding in a full-pipeline output satisfies exactly these checks (its
document may still equal the placeholder). -/
theorem C3_amended_evidence_checks :
    (∀ (p : Obj) (g : JVal), g ∈ findingsList (evidence_gateObj p) →
      evidenceOK g = true) ∧
    (∀ (env : AuditEnv) (path : String) (g : JVal),
      g ∈ findingsList (audit_credit_report env path) → evidenceOK g = true) :=
  ⟨fun p _ hg => mem_findingsList_evidence_gateObj p hg,
   fun _ _ _ hg => audit_findings_evidenceOK hg⟩

theorem C3_amended_evidence_checks_witness :
    evidenceOK c3find = true ∧ evidenceOK c3find = true :=
  ⟨C3_amended_evidence_checks.1 C3p c3find (List.Mem.head _),
   C3_amended_evidence_checks.2 w3env "report.pdf" c3find (List.Mem.head _)⟩

/-- C1 counterexample: with every collaborator behaving well but the model
response carrying `"timestamp": 5`, the public entry point returns a
payload whose timestamp is a number, not a string — the result is not
structurally valid in the wire contract's types, refuting the claim as
stated (the non-throwing part survives; see the amended theorem). -/
theorem C1_counterexample :
    structValid (audit_credit_report c1env "report.pdf") = false ∧
    isNumVal (pyGet (audit_credit_report c1env "report.pdf") "timestamp") = true := by
  decide

/-- C1 (amended): for every behaviour of the file system, the remote
collaborators, the JSON parser and the model response (all quantified via
the oracle environment), the public entry point returns — with every
exception caught at its boundary — a payload carrying all seven contract
keys, with `version`, `status`, `risk_level`, `findings`, `confidence` and
`notes` of the contract's types (statuses drawn from the code's enums);
the `timestamp` key is always present but carries whatever truthy value
the model supplied, so its type is not guaranteed (see the
counterexample). -/
theorem C1_amended_total_weak_structure (env : AuditEnv) (file_path : String) :
    structValidW (audit_credit_report env file_path) = true := by
  unfold audit_credit_report
  cases hb : audit_body env file_path with
  | error e =>
    exact structValid_imp_weak (structValid_empty _ _ _ _ _ (by decide) (by decide))
  | ok q =>
    unfold audit_body at hb
    repeat' split at hb
    any_goals cases hb
    all_goals
      try exact structValid_imp_weak (structValid_empty _ _ _ _ _ (by decide) (by decide))
    exact run_gemini_audit_ok_structValidW hb
